import Mathlib

/-!
Verification of the AI-CRM backend core (Backend/tools.py, Backend/agent.py,
Backend/database.py) against its natural-language specification.

The embedding is a shallow one: request payloads are association lists of
Python-style values, the record store is a list of interaction records kept
newest-first (creation prepends, mirroring ordering by `created_at desc`),
each business tool is a pure function from inputs and store to a structured
tool result plus the successor store, and Python exceptions that escape into
a caller are modelled with `Except`.  Wall-clock reads (`datetime.utcnow()`)
and freshly generated UUIDs are passed in explicitly; the external
text-generation capability (Groq) and the standard-library ISO date parser
are abstract parameters, since their behaviour is outside this repository.
-/

namespace HealthcareCRM

/-- A Python value as it occurs in the JSON-ish request payloads and in the
dynamically typed ORM attributes: a string, an integer, a boolean, or `None`. -/
inductive Value where
  | str (s : String)
  | int (n : Int)
  | bool (b : Bool)
  | none
deriving DecidableEq

/-- Python `str(v)`, as used by f-string interpolation. -/
def Value.pyStr : Value → String
  | .str s => s
  | .int n => toString n
  | .bool true => "True"
  | .bool false => "False"
  | .none => "None"

/-- Python `type(v).__name__`, as it appears in `AttributeError` messages. -/
def Value.pyTypeName : Value → String
  | .str _ => "str"
  | .int _ => "int"
  | .bool _ => "bool"
  | .none => "NoneType"

/-- A request payload: a Python dict with string keys (keys are unique in a
dict, so first-match lookup is faithful). -/
abbrev Payload := List (String × Value)

/-- Python `d.get(k)` / `d[k]` lookup: the bound value when the key is
present (even when that value is `None`), absent otherwise. -/
def pyGet? (d : Payload) (k : String) : Option Value :=
  (d.find? (fun kv => kv.1 == k)).map (fun kv => kv.2)

/-- Python `d.get(k, dflt)`. -/
def pyGetD (d : Payload) (k : String) (dflt : Value) : Value :=
  (pyGet? d k).getD dflt

/-- Python `k in d`. -/
def hasKey (d : Payload) (k : String) : Bool :=
  (pyGet? d k).isSome

/-- One row of the `patient_interactions` table (database.py,
`PatientInteraction`).  Attributes that the tools copy straight out of a
payload keep the dynamic `Value` type; machine-managed columns (`id`,
timestamps, the compliance boolean, the parsed follow-up datetime) are typed. -/
structure PatientInteraction where
  id : String
  patient_id : Value
  interaction_type : Value
  interaction_date : Nat
  duration_minutes : Value
  symptoms : Value
  diagnosis : Value
  prescription : Value
  follow_up_date : Option Int
  chat_notes : Value
  is_compliant : Bool
  created_at : Nat
  updated_at : Nat
deriving DecidableEq

/-- `PatientInteraction()` as committed with all column defaults applied:
fresh UUID primary key, `interaction_type` defaulting to "consultation",
`is_compliant` defaulting to false, and the three timestamp columns set to
the current time (database.py lines 33-45). -/
def PatientInteraction.new (freshId : String) (now : Nat) : PatientInteraction :=
  { id := freshId
    patient_id := Value.none
    interaction_type := Value.str "consultation"
    interaction_date := now
    duration_minutes := Value.none
    symptoms := Value.none
    diagnosis := Value.none
    prescription := Value.none
    follow_up_date := Option.none
    chat_notes := Value.none
    is_compliant := false
    created_at := now
    updated_at := now }

/-- The record store: the `patient_interactions` table, newest first.
Creation prepends, so the head is the row `order_by(created_at.desc()).first()`
returns. -/
abbrev Store := List PatientInteraction

/-- Replace the first record satisfying `p` (the unique row matched by a
primary-key filter) by `f` of it. -/
def updateFirst (p : PatientInteraction → Bool) (f : PatientInteraction → PatientInteraction) :
    Store → Store
  | [] => []
  | i :: rest => if p i then f i :: rest else i :: updateFirst p f rest

/-- The dict a tool returns: always a `success` flag, plus whichever of the
other keys that tool's return statement populates. -/
structure ToolResult where
  success : Bool
  message : Option String := Option.none
  error : Option String := Option.none
  interaction_id : Option String := Option.none
  data : Option PatientInteraction := Option.none
  updated : Option PatientInteraction := Option.none
deriving DecidableEq

/-- `log_interaction_tool` (tools.py lines 14-63).  `dbFail` abstracts the
storage layer: `some e` means `add`/`commit` raises an exception whose
`str` is `e` (caught, rolled back, reported); `none` means persistence
succeeds.  `freshId` is the UUID the new row receives, `now` the commit time. -/
def log_interaction_tool (now : Nat) (freshId : String) (dbFail : Option String)
    (interaction_data : Payload) (db : Store) : ToolResult × Store :=
  let mode := pyGetD interaction_data "mode" (Value.str "form")
  let base := PatientInteraction.new freshId now
  let new_interaction :=
    if mode = Value.str "chat" then
      { base with
          chat_notes := pyGetD interaction_data "notes" (Value.str "")
          interaction_type := Value.str "consultation"
          duration_minutes := Value.int 30 }
    else
      { base with
          patient_id := pyGetD interaction_data "patient_id" Value.none
          symptoms := pyGetD interaction_data "symptoms" Value.none
          diagnosis := pyGetD interaction_data "diagnosis" Value.none
          prescription := pyGetD interaction_data "prescription" Value.none
          duration_minutes := pyGetD interaction_data "duration" (Value.int 20) }
  match dbFail with
  | Option.some e => ({ success := false, error := Option.some e }, db)
  | Option.none =>
      ({ success := true
         interaction_id := Option.some freshId
         data := Option.some new_interaction },
        new_interaction :: db)

/-- `edit_interaction_tool` (tools.py lines 68-106): mutates the most
recently created record, applying only the `diagnosis` / `prescription`
keys present in `updates` and refreshing `updated_at`. -/
def edit_interaction_tool (now : Nat) (updates : Payload) (db : Store) : ToolResult × Store :=
  match db with
  | [] => ({ success := false, message := Option.some "No interaction found" }, [])
  | last :: rest =>
      let last1 :=
        if hasKey updates "diagnosis" then
          { last with diagnosis := pyGetD updates "diagnosis" Value.none }
        else last
      let last2 :=
        if hasKey updates "prescription" then
          { last1 with prescription := pyGetD updates "prescription" Value.none }
        else last1
      let last3 := { last2 with updated_at := now }
      ({ success := true, updated := Option.some last3 }, last3 :: rest)

/-- `followup_tool` (tools.py lines 137-165).  `parseIso` abstracts
`datetime.fromisoformat`: `none` means the call raises `ValueError` (whose
`str` is "Invalid isoformat string: '<input>'"), caught and rolled back. -/
def followup_tool (parseIso : String → Option Int) (now : Nat)
    (interaction_id : String) (followup_date : String) (db : Store) : ToolResult × Store :=
  match db.find? (fun i => i.id == interaction_id) with
  | Option.none => ({ success := false, message := Option.some "Not found" }, db)
  | Option.some _ =>
      match parseIso followup_date with
      | Option.none =>
          ({ success := false
             error := Option.some ("Invalid isoformat string: '" ++ followup_date ++ "'") }, db)
      | Option.some d =>
          ({ success := true },
            updateFirst (fun i => i.id == interaction_id)
              (fun i => { i with follow_up_date := Option.some d, updated_at := now }) db)

/-- `compliance_tool` (tools.py lines 170-194).  The source has no
missing-record guard: when the id is unknown, `interaction` is `None` and
the attribute assignment raises `AttributeError`, which the generic handler
converts to a rolled-back error result. -/
def compliance_tool (now : Nat) (interaction_id : String) (is_compliant : Bool)
    (db : Store) : ToolResult × Store :=
  match db.find? (fun i => i.id == interaction_id) with
  | Option.none =>
      ({ success := false
         error := Option.some "'NoneType' object has no attribute 'is_compliant'" }, db)
  | Option.some _ =>
      ({ success := true },
        updateFirst (fun i => i.id == interaction_id)
          (fun i => { i with is_compliant := is_compliant, updated_at := now }) db)

/-- The keys of the `TOOLS` registry (tools.py lines 199-205). -/
def TOOLS_keys : List String :=
  ["log_interaction", "edit_interaction", "fetch_hcp", "schedule_followup", "mark_compliant"]

/-- The insight bundle `generate_ai_summary` returns (agent.py): summary,
insights, confidence score, the mock path's next-step list, model name,
generation time, and the real-vs-mock flag. -/
structure AIInsights where
  summary : String
  insights : List String
  confidence_score : Rat
  next_steps : Option (List String) := Option.none
  ai_model : String
  generated_at : Nat
  is_real_ai : Bool
deriving DecidableEq

/-- Python `s.split()`: split on whitespace runs, dropping empty pieces. -/
def pySplitWs (s : String) : List String :=
  (s.split (fun c => c.isWhitespace)).filter (fun t => !t.isEmpty)

/-- The mock chat summary f-string (agent.py line 165). -/
def chatSummaryText (word_count : Nat) : String :=
  s!"Analyzed {word_count} words of clinical notes. Patient presents with common symptoms requiring follow-up."

/-- The mock form summary f-string (agent.py line 185). -/
def formSummaryText (patient_id : String) : String :=
  s!"Structured consultation for patient {patient_id} recorded successfully."

/-- The mock chat-mode bundle (agent.py lines 164-180). -/
def mockChatInsights (now : Nat) (word_count : Nat) : AIInsights :=
  { summary := chatSummaryText word_count
    insights :=
      ["Suggested follow-up in 1-2 weeks",
       "Monitor for symptom progression",
       "Check for medication interactions"]
    confidence_score := 92 / 100
    next_steps :=
      Option.some
        ["Schedule follow-up appointment",
         "Order basic lab tests",
         "Update patient medication list"]
    ai_model := "Mock AI (Groq not available)"
    generated_at := now
    is_real_ai := false }

/-- The mock form-mode bundle (agent.py lines 184-200). -/
def mockFormInsights (now : Nat) (patient_id : String) : AIInsights :=
  { summary := formSummaryText patient_id
    insights :=
      ["Data completeness: 95%",
       "No immediate red flags detected",
       "Standard treatment protocol followed"]
    confidence_score := 94 / 100
    next_steps :=
      Option.some
        ["Review and sign documentation",
         "Update electronic health records",
         "Schedule next appointment"]
    ai_model := "Mock AI (Groq not available)"
    generated_at := now
    is_real_ai := false }

/-- The mock AI response (agent.py lines 157-200), the deterministic
fallback of the Summary Generator.  Chat mode reads
`input_data.get("notes", "")` and calls `.split()` on it, which raises
`AttributeError` when the key is bound to a non-string value such as `None`;
that escaping exception is the `Except.error` case. -/
def mock_ai_summary (now : Nat) (input_data : Payload) : Except String AIInsights :=
  let mode := pyGetD input_data "mode" (Value.str "form")
  if mode = Value.str "chat" then
    match pyGetD input_data "notes" (Value.str "") with
    | Value.str notes =>
        Except.ok (mockChatInsights now (pySplitWs notes).length)
    | v =>
        Except.error ("'" ++ v.pyTypeName ++ "' object has no attribute 'split'")
  else
    Except.ok (mockFormInsights now ((pyGetD input_data "patient_id" (Value.str "Unknown")).pyStr))

/-- What `json.loads` + `.get` extracts from an external-model reply:
the three optional keys the agent reads (agent.py lines 129-133). -/
structure GroqJson where
  summary : Option String := Option.none
  insights : Option (List String) := Option.none
  confidence_score : Option Rat := Option.none

/-- The external text-generation capability, abstract: `invoke` maps a
prompt to the reply content or to a raised exception, and `parseJson`
models `json.loads` on the reply (`none` = `JSONDecodeError`). -/
structure GroqEnv where
  invoke : String → Except String String
  parseJson : String → Option GroqJson

/-- Minimal JSON string escaping, for `json.dumps` on payload values. -/
def jsonEscape (s : String) : String :=
  s.foldl
    (fun acc c =>
      if c = '"' then acc ++ "\\\""
      else if c = '\\' then acc ++ "\\\\"
      else acc.push c)
    ""

/-- `json.dumps` on a payload value. -/
def Value.jsonStr : Value → String
  | .str s => "\"" ++ jsonEscape s ++ "\""
  | .int n => toString n
  | .bool true => "true"
  | .bool false => "false"
  | .none => "null"

/-- `json.dumps(input_data)` on a payload dict. -/
def jsonDumps (d : Payload) : String :=
  "\x7b" ++
    String.intercalate ", "
      (d.map (fun kv => "\"" ++ jsonEscape kv.1 ++ "\": " ++ kv.2.jsonStr)) ++
  "\x7d"

/-- The prompt f-string built for the external model (agent.py lines
116-123), applied to the already-truncated interaction text. -/
def buildPrompt (text2000 : String) : String :=
  "\nYou are a healthcare CRM AI assistant. Analyze this doctor interaction:\n\n" ++
    text2000 ++
  "  # Limit text length\n\nProvide a brief summary and 2-3 actionable insights.\nFormat as JSON with keys: summary, insights (list), confidence_score.\n"

/-- `Agent.generate_ai_summary` (agent.py lines 102-200).  `groq = none`
models `GROQ_AVAILABLE == False` (no key configured / import failed).  In
the external branch every exception — including the `TypeError` from
slicing a non-string chat `notes` value while building the prompt, and any
failure of the external call itself — is caught and control falls through
to the mock response; only the mock path can let an exception escape.  The
`tool_result` argument is accepted but never read, as in the source. -/
def generate_ai_summary (groq : Option GroqEnv) (now : Nat)
    (input_data : Payload) (tool_result : ToolResult) : Except String AIInsights :=
  match groq with
  | Option.none => mock_ai_summary now input_data
  | Option.some env =>
      let textE : Except String String :=
        if pyGetD input_data "mode" Value.none = Value.str "chat" then
          match pyGetD input_data "notes" (Value.str "") with
          | Value.str s => Except.ok s
          | v => Except.error ("'" ++ v.pyTypeName ++ "' object is not subscriptable")
        else
          Except.ok (jsonDumps input_data)
      match textE with
      | Except.error _ => mock_ai_summary now input_data
      | Except.ok text =>
          match env.invoke (buildPrompt (text.take 2000)) with
          | Except.error _ => mock_ai_summary now input_data
          | Except.ok content =>
              match env.parseJson content with
              | Option.some ai =>
                  Except.ok
                    { summary := ai.summary.getD "AI analysis completed"
                      insights := ai.insights.getD ["No specific insights generated"]
                      confidence_score := ai.confidence_score.getD (85 / 100)
                      ai_model := "llama3-8b-8192"
                      generated_at := now
                      is_real_ai := true }
              | Option.none =>
                  Except.ok
                    { summary := content.take 200
                      insights :=
                        ["AI generated insights from clinical notes",
                         "Recommend reviewing diagnosis accuracy",
                         "Schedule appropriate follow-up"]
                      confidence_score := 88 / 100
                      ai_model := "llama3-8b-8192"
                      generated_at := now
                      is_real_ai := true }

/-- The dict `Agent.process_interaction` returns: the success envelope, the
tool-failure envelope, the tool-not-found message, or the top-level
exception handler's internal-error dict. -/
structure Envelope where
  success : Bool
  tool_used : Option String := Option.none
  tool_result : Option ToolResult := Option.none
  ai_insights : Option AIInsights := Option.none
  processed_at : Option Nat := Option.none
  message : Option String := Option.none
  error : Option String := Option.none
deriving DecidableEq

/-- `Agent.process_interaction` (agent.py lines 52-100): look the (fixed)
tool name up in the registry, run it, on tool failure return the failure
envelope without generating a summary, otherwise attach the AI insights;
an exception escaping the summary generator is converted by the top-level
handler into the internal-error envelope (the already-committed record
stays in the store). -/
def process_interaction (groq : Option GroqEnv) (now : Nat) (freshId : String)
    (dbFail : Option String) (input_data : Payload) (db : Store) : Envelope × Store :=
  let tool_name := "log_interaction"
  if TOOLS_keys.contains tool_name then
    let r := log_interaction_tool now freshId dbFail input_data db
    if r.1.success = false then
      ({ success := false
         message := Option.some (r.1.error.getD "Tool execution failed")
         tool_result := Option.some r.1 }, r.2)
    else
      match generate_ai_summary groq now input_data r.1 with
      | Except.error e =>
          ({ success := false
             error := Option.some e
             message := Option.some "Internal server error" }, r.2)
      | Except.ok ai =>
          ({ success := true
             tool_used := Option.some tool_name
             tool_result := Option.some r.1
             ai_insights := Option.some ai
             processed_at := Option.some now }, r.2)
  else
    ({ success := false, message := Option.some "Tool not found" }, db)

/-! ## Claim theorems -/

/-- C2: for every chat-mode payload (and successful persistence),
`log_interaction` creates a record whose interaction kind is
"consultation" and whose duration is 30 minutes, regardless of any
duration value supplied in the payload. -/
theorem c2_chat_fixed_kind_duration (now : Nat) (freshId : String)
    (interaction_data : Payload) (db : Store)
    (hmode : pyGetD interaction_data "mode" (Value.str "form") = Value.str "chat") :
    ∃ rec : PatientInteraction,
      log_interaction_tool now freshId Option.none interaction_data db =
        ({ success := true, interaction_id := Option.some freshId, data := Option.some rec },
          rec :: db) ∧
      rec.interaction_type = Value.str "consultation" ∧
      rec.duration_minutes = Value.int 30 := by
  refine ⟨{ PatientInteraction.new freshId now with
      chat_notes := pyGetD interaction_data "notes" (Value.str "")
      interaction_type := Value.str "consultation"
      duration_minutes := Value.int 30 }, ?_, rfl, rfl⟩
  simp [log_interaction_tool, hmode]

/-- Witness for C2 at the concrete chat payload with a supplied duration of
99: the stored record still has kind "consultation" and duration 30. -/
theorem c2_chat_fixed_kind_duration_witness :
    pyGetD [("mode", Value.str "chat"), ("duration", Value.int 99)] "mode" (Value.str "form") =
      Value.str "chat" ∧
    ∃ rec : PatientInteraction,
      log_interaction_tool 5 "uuid-1" Option.none
          [("mode", Value.str "chat"), ("duration", Value.int 99)] [] =
        ({ success := true, interaction_id := Option.some "uuid-1", data := Option.some rec },
          rec :: []) ∧
      rec.interaction_type = Value.str "consultation" ∧
      rec.duration_minutes = Value.int 30 :=
  ⟨rfl, c2_chat_fixed_kind_duration 5 "uuid-1" _ [] rfl⟩

/-- C7: for every form-mode payload (mode not "chat", successful
persistence), `log_interaction` creates exactly one record, copying patient
id, symptoms, diagnosis and prescription from the payload, with the
duration defaulted to 20 when absent from the payload. -/
theorem c7_form_creates_record (now : Nat) (freshId : String)
    (interaction_data : Payload) (db : Store)
    (hmode : pyGetD interaction_data "mode" (Value.str "form") ≠ Value.str "chat") :
    ∃ rec : PatientInteraction,
      log_interaction_tool now freshId Option.none interaction_data db =
        ({ success := true, interaction_id := Option.some freshId, data := Option.some rec },
          rec :: db) ∧
      rec.patient_id = pyGetD interaction_data "patient_id" Value.none ∧
      rec.symptoms = pyGetD interaction_data "symptoms" Value.none ∧
      rec.diagnosis = pyGetD interaction_data "diagnosis" Value.none ∧
      rec.prescription = pyGetD interaction_data "prescription" Value.none ∧
      (pyGet? interaction_data "duration" = Option.none →
        rec.duration_minutes = Value.int 20) := by
  refine ⟨{ PatientInteraction.new freshId now with
      patient_id := pyGetD interaction_data "patient_id" Value.none
      symptoms := pyGetD interaction_data "symptoms" Value.none
      diagnosis := pyGetD interaction_data "diagnosis" Value.none
      prescription := pyGetD interaction_data "prescription" Value.none
      duration_minutes := pyGetD interaction_data "duration" (Value.int 20) },
    ?_, rfl, rfl, rfl, rfl, ?_⟩
  · simp [log_interaction_tool, hmode]
  · intro habsent
    simp [pyGetD, habsent]

/-- Witness for C7 at a concrete form payload with no duration key. -/
theorem c7_form_creates_record_witness :
    pyGetD [("mode", Value.str "form"), ("patient_id", Value.str "PAT123")] "mode"
        (Value.str "form") ≠ Value.str "chat" ∧
    ∃ rec : PatientInteraction,
      log_interaction_tool 4 "uuid-7" Option.none
          [("mode", Value.str "form"), ("patient_id", Value.str "PAT123")] [] =
        ({ success := true, interaction_id := Option.some "uuid-7", data := Option.some rec },
          rec :: []) ∧
      rec.patient_id =
        pyGetD [("mode", Value.str "form"), ("patient_id", Value.str "PAT123")] "patient_id"
          Value.none ∧
      rec.symptoms =
        pyGetD [("mode", Value.str "form"), ("patient_id", Value.str "PAT123")] "symptoms"
          Value.none ∧
      rec.diagnosis =
        pyGetD [("mode", Value.str "form"), ("patient_id", Value.str "PAT123")] "diagnosis"
          Value.none ∧
      rec.prescription =
        pyGetD [("mode", Value.str "form"), ("patient_id", Value.str "PAT123")] "prescription"
          Value.none ∧
      (pyGet? [("mode", Value.str "form"), ("patient_id", Value.str "PAT123")] "duration" =
          Option.none →
        rec.duration_minutes = Value.int 20) :=
  ⟨by decide, c7_form_creates_record 4 "uuid-7" _ [] (by decide)⟩

/-- C9: when a form-mode payload carries the `duration` key bound to a null
value (as the API layer produces for omitted fields), the stored record's
duration is null, not the documented default of 20 — the default applies
only when the key itself is missing. -/
theorem c9_null_duration_stored (now : Nat) (freshId : String)
    (interaction_data : Payload) (db : Store)
    (hmode : pyGetD interaction_data "mode" (Value.str "form") ≠ Value.str "chat")
    (hdur : pyGet? interaction_data "duration" = Option.some Value.none) :
    ∃ rec : PatientInteraction,
      log_interaction_tool now freshId Option.none interaction_data db =
        ({ success := true, interaction_id := Option.some freshId, data := Option.some rec },
          rec :: db) ∧
      rec.duration_minutes = Value.none ∧
      rec.duration_minutes ≠ Value.int 20 := by
  refine ⟨{ PatientInteraction.new freshId now with
      patient_id := pyGetD interaction_data "patient_id" Value.none
      symptoms := pyGetD interaction_data "symptoms" Value.none
      diagnosis := pyGetD interaction_data "diagnosis" Value.none
      prescription := pyGetD interaction_data "prescription" Value.none
      duration_minutes := pyGetD interaction_data "duration" (Value.int 20) },
    ?_, ?_, ?_⟩
  · simp [log_interaction_tool, hmode]
  · simp [pyGetD, hdur]
  · simp [pyGetD, hdur]

/-- Witness for C9 at the payload the API layer produces for a form
submission that omits `duration`: the key is present and bound to null. -/
theorem c9_null_duration_stored_witness :
    pyGetD [("mode", Value.str "form"), ("duration", Value.none)] "mode" (Value.str "form") ≠
      Value.str "chat" ∧
    pyGet? [("mode", Value.str "form"), ("duration", Value.none)] "duration" =
      Option.some Value.none ∧
    ∃ rec : PatientInteraction,
      log_interaction_tool 9 "uuid-9" Option.none
          [("mode", Value.str "form"), ("duration", Value.none)] [] =
        ({ success := true, interaction_id := Option.some "uuid-9", data := Option.some rec },
          rec :: []) ∧
      rec.duration_minutes = Value.none ∧
      rec.duration_minutes ≠ Value.int 20 :=
  ⟨by decide, by decide, c9_null_duration_stored 9 "uuid-9" _ [] (by decide) (by decide)⟩

/-- C6: on a store with at least one record, `edit_interaction` with a
diagnosis-only update rewrites exactly the diagnosis of the most recently
created record and its updated timestamp (refreshed to the current,
no-earlier time); every other field of every record is untouched. -/
theorem c6_edit_diagnosis_only (now : Nat) (v : Value) (r : PatientInteraction)
    (rest : Store) (hnow : r.updated_at ≤ now) :
    edit_interaction_tool now [("diagnosis", v)] (r :: rest) =
      ({ success := true,
         updated := Option.some { r with diagnosis := v, updated_at := now } },
        { r with diagnosis := v, updated_at := now } :: rest) ∧
    r.updated_at ≤
      ({ r with diagnosis := v, updated_at := now } : PatientInteraction).updated_at :=
  ⟨rfl, hnow⟩

/-- Witness for C6: editing the diagnosis of a concrete one-record store. -/
theorem c6_edit_diagnosis_only_witness :
    (PatientInteraction.new "uuid-6" 2).updated_at ≤ 8 ∧
    (edit_interaction_tool 8 [("diagnosis", Value.str "X")]
        [PatientInteraction.new "uuid-6" 2] =
      ({ success := true,
         updated := Option.some
           { PatientInteraction.new "uuid-6" 2 with
               diagnosis := Value.str "X", updated_at := 8 } },
        [{ PatientInteraction.new "uuid-6" 2 with
             diagnosis := Value.str "X", updated_at := 8 }]) ∧
    (PatientInteraction.new "uuid-6" 2).updated_at ≤
      ({ PatientInteraction.new "uuid-6" 2 with
           diagnosis := Value.str "X", updated_at := 8 } : PatientInteraction).updated_at) :=
  ⟨by decide, c6_edit_diagnosis_only 8 (Value.str "X") _ [] (by decide)⟩

/-- C10: on a store with at least one record, `edit_interaction` with an
updates mapping containing neither `diagnosis` nor `prescription` (empty or
only unrecognized keys) still succeeds and refreshes the most recent
record's updated timestamp, changing nothing else. -/
theorem c10_edit_noop_touch (now : Nat) (updates : Payload) (r : PatientInteraction)
    (rest : Store)
    (hd : hasKey updates "diagnosis" = false)
    (hp : hasKey updates "prescription" = false) :
    edit_interaction_tool now updates (r :: rest) =
      ({ success := true, updated := Option.some { r with updated_at := now } },
        { r with updated_at := now } :: rest) := by
  simp [edit_interaction_tool, hd, hp]

/-- Witness for C10: an updates mapping holding only an unrecognized key
still succeeds and touches the timestamp. -/
theorem c10_edit_noop_touch_witness :
    hasKey [("followUpDate", Value.str "2024-01-27")] "diagnosis" = false ∧
    hasKey [("followUpDate", Value.str "2024-01-27")] "prescription" = false ∧
    edit_interaction_tool 7 [("followUpDate", Value.str "2024-01-27")]
        [PatientInteraction.new "uuid-10" 2] =
      ({ success := true,
         updated := Option.some { PatientInteraction.new "uuid-10" 2 with updated_at := 7 } },
        [{ PatientInteraction.new "uuid-10" 2 with updated_at := 7 }]) :=
  ⟨by decide, by decide,
    c10_edit_noop_touch 7 [("followUpDate", Value.str "2024-01-27")] _ [] (by decide) (by decide)⟩

/-- C5: for every existing interaction id and every date string the ISO
parser rejects, `schedule_followup` fails with the ValidationError-style
result carrying the `ValueError` text, and the whole store — in particular
the target record's follow-up date — is unchanged. -/
theorem c5_followup_bad_date (parseIso : String → Option Int) (now : Nat)
    (interaction_id followup_date : String) (db : Store)
    (hfound : (db.find? (fun i => i.id == interaction_id)).isSome = true)
    (hparse : parseIso followup_date = Option.none) :
    followup_tool parseIso now interaction_id followup_date db =
      ({ success := false,
         error := Option.some ("Invalid isoformat string: '" ++ followup_date ++ "'") }, db) := by
  rcases h : db.find? (fun i => i.id == interaction_id) with _ | i
  · rw [h] at hfound
    simp at hfound
  · simp [followup_tool, h, hparse]

/-- Witness for C5: an unparseable date against a one-record store. -/
theorem c5_followup_bad_date_witness :
    (([PatientInteraction.new "uuid-5" 1].find? (fun i => i.id == "uuid-5")).isSome = true) ∧
    ((fun _ : String => (Option.none : Option Int)) "not-a-date" = Option.none) ∧
    followup_tool (fun _ => Option.none) 6 "uuid-5" "not-a-date"
        [PatientInteraction.new "uuid-5" 1] =
      ({ success := false,
         error := Option.some "Invalid isoformat string: 'not-a-date'" },
        [PatientInteraction.new "uuid-5" 1]) :=
  ⟨by decide, rfl,
    c5_followup_bad_date (fun _ => Option.none) 6 "uuid-5" "not-a-date" _ (by decide) rfl⟩

/-- C4 counterexample: at the concrete unknown id "missing-id" on the empty
store, `mark_compliant` does fail, but not with the NotFound-style result
this codebase uses to identify an absent record (`message = "Not found"`,
as `schedule_followup` returns): its `message` field is empty and its
`error` field carries the `AttributeError` raised by dereferencing `None`,
because the source has no missing-record guard. -/
theorem c4_missing_id_attribute_error :
    (compliance_tool 0 "missing-id" true []).1.success = false ∧
    (compliance_tool 0 "missing-id" true []).1.message = Option.none ∧
    (compliance_tool 0 "missing-id" true []).1.error =
      Option.some "'NoneType' object has no attribute 'is_compliant'" :=
  ⟨rfl, rfl, rfl⟩

/-- C4 (amended): for every interaction id absent from the store and every
flag, `mark_compliant` fails with a structured failure result whose error
field carries the `AttributeError` text from dereferencing the missing
record — not a NotFound-style message — and the store is left unchanged. -/
theorem c4_compliance_missing_id (now : Nat) (interaction_id : String)
    (is_compliant : Bool) (db : Store)
    (habsent : db.find? (fun i => i.id == interaction_id) = Option.none) :
    compliance_tool now interaction_id is_compliant db =
      ({ success := false,
         error := Option.some "'NoneType' object has no attribute 'is_compliant'" }, db) := by
  simp [compliance_tool, habsent]

/-- Witness for the amended C4: an unknown id against a one-record store. -/
theorem c4_compliance_missing_id_witness :
    ([PatientInteraction.new "uuid-4" 1].find? (fun i => i.id == "missing-id") =
      Option.none) ∧
    compliance_tool 3 "missing-id" false [PatientInteraction.new "uuid-4" 1] =
      ({ success := false,
         error := Option.some "'NoneType' object has no attribute 'is_compliant'" },
        [PatientInteraction.new "uuid-4" 1]) :=
  ⟨by decide, c4_compliance_missing_id 3 "missing-id" false _ (by decide)⟩

/-- C3 counterexample: at the concrete chat payload whose `notes` key is
bound to null (exactly what the API layer emits when the field is omitted),
the deterministic fallback does not return a bundle at all — `.split()` on
`None` raises `AttributeError`, which escapes the generator. -/
theorem c3_fallback_null_notes_error :
    generate_ai_summary Option.none 0
        [("mode", Value.str "chat"), ("notes", Value.none)] { success := true } =
      Except.error "'NoneType' object has no attribute 'split'" := rfl

/-- C3 (amended): for every payload whose chat notes value — when mode is
"chat" and the key is present — is a string, the deterministic fallback
returns a bundle with `is_real_ai` false whose insight list is one of two
fixed, payload-independent 3-string lists (one per mode); in chat mode the
summary states the word count of the notes and the confidence is 0.92, in
every other mode the summary references the payload's patient identifier
(via Python `str`, "Unknown" when the key is absent) and the confidence is
0.94. -/
theorem c3_fallback_bundle (now : Nat) (input_data : Payload) (tr : ToolResult)
    (hnotes : pyGetD input_data "mode" (Value.str "form") = Value.str "chat" →
      ∃ s, pyGetD input_data "notes" (Value.str "") = Value.str s) :
    ∃ b : AIInsights,
      generate_ai_summary Option.none now input_data tr = Except.ok b ∧
      b.is_real_ai = false ∧
      b.insights.length = 3 ∧
      (pyGetD input_data "mode" (Value.str "form") = Value.str "chat" →
        b.insights =
          ["Suggested follow-up in 1-2 weeks",
           "Monitor for symptom progression",
           "Check for medication interactions"] ∧
        (∃ s, pyGetD input_data "notes" (Value.str "") = Value.str s ∧
          b.summary = chatSummaryText (pySplitWs s).length) ∧
        b.confidence_score = 92 / 100) ∧
      (pyGetD input_data "mode" (Value.str "form") ≠ Value.str "chat" →
        b.insights =
          ["Data completeness: 95%",
           "No immediate red flags detected",
           "Standard treatment protocol followed"] ∧
        b.summary =
          formSummaryText ((pyGetD input_data "patient_id" (Value.str "Unknown")).pyStr) ∧
        b.confidence_score = 94 / 100) := by
  by_cases hmode : pyGetD input_data "mode" (Value.str "form") = Value.str "chat"
  · obtain ⟨s, hs⟩ := hnotes hmode
    refine ⟨mockChatInsights now (pySplitWs s).length, ?_, rfl, rfl,
      fun _ => ⟨rfl, ⟨s, hs, rfl⟩, rfl⟩, fun h => absurd hmode h⟩
    simp [generate_ai_summary, mock_ai_summary, hmode, hs]
  · refine ⟨mockFormInsights now ((pyGetD input_data "patient_id" (Value.str "Unknown")).pyStr),
      ?_, rfl, rfl, fun h => absurd h hmode, fun _ => ⟨rfl, rfl, rfl⟩⟩
    simp [generate_ai_summary, mock_ai_summary, hmode]

/-- Witness for the amended C3 at `{"mode": "chat", "notes": "a b c"}`:
the bundle carries the fixed chat insight list, its summary mentions word
count 3, and confidence is 0.92. -/
theorem c3_fallback_bundle_witness :
    (pyGetD [("mode", Value.str "chat"), ("notes", Value.str "a b c")] "mode"
        (Value.str "form") = Value.str "chat" →
      ∃ s, pyGetD [("mode", Value.str "chat"), ("notes", Value.str "a b c")] "notes"
          (Value.str "") = Value.str s) ∧
    ∃ b : AIInsights,
      generate_ai_summary Option.none 7
          [("mode", Value.str "chat"), ("notes", Value.str "a b c")] { success := true } =
        Except.ok b ∧
      b.is_real_ai = false ∧
      b.insights.length = 3 ∧
      (pyGetD [("mode", Value.str "chat"), ("notes", Value.str "a b c")] "mode"
          (Value.str "form") = Value.str "chat" →
        b.insights =
          ["Suggested follow-up in 1-2 weeks",
           "Monitor for symptom progression",
           "Check for medication interactions"] ∧
        (∃ s, pyGetD [("mode", Value.str "chat"), ("notes", Value.str "a b c")] "notes"
            (Value.str "") = Value.str s ∧
          b.summary = chatSummaryText (pySplitWs s).length) ∧
        b.confidence_score = 92 / 100) ∧
      (pyGetD [("mode", Value.str "chat"), ("notes", Value.str "a b c")] "mode"
          (Value.str "form") ≠ Value.str "chat" →
        b.insights =
          ["Data completeness: 95%",
           "No immediate red flags detected",
           "Standard treatment protocol followed"] ∧
        b.summary =
          formSummaryText
            ((pyGetD [("mode", Value.str "chat"), ("notes", Value.str "a b c")] "patient_id"
                (Value.str "Unknown")).pyStr) ∧
        b.confidence_score = 94 / 100) :=
  ⟨fun _ => ⟨"a b c", rfl⟩,
    c3_fallback_bundle 7 [("mode", Value.str "chat"), ("notes", Value.str "a b c")]
      { success := true } (fun _ => ⟨"a b c", rfl⟩)⟩

/-- C1 counterexample: at the concrete chat payload whose `notes` key is
bound to null, the log tool succeeds (the record is committed) and yet
`process_interaction` returns a failure envelope — the `AttributeError`
raised inside the fallback summary generator reaches the top-level handler,
so the promised success envelope with three insights is not produced. -/
theorem c1_counterexample_null_notes :
    (log_interaction_tool 0 "uuid-0" Option.none
        [("mode", Value.str "chat"), ("notes", Value.none)] []).1.success = true ∧
    (process_interaction Option.none 0 "uuid-0" Option.none
        [("mode", Value.str "chat"), ("notes", Value.none)] []).1 =
      { success := false
        error := Option.some "'NoneType' object has no attribute 'split'"
        message := Option.some "Internal server error" } :=
  ⟨rfl, rfl⟩

/-- C1 (amended): for every chat-mode payload whose notes value (when the
key is present) is a string — as the API layer's validation guarantees —
processed with no external model configured and while the log tool
succeeds, `process_interaction` returns an envelope with success true,
`tool_used = "log_interaction"`, the tool's result, an insight bundle of
exactly 3 insights, and the processing timestamp. -/
theorem c1_chat_envelope (now : Nat) (freshId : String) (dbFail : Option String)
    (input_data : Payload) (db : Store)
    (hmode : pyGetD input_data "mode" (Value.str "form") = Value.str "chat")
    (hnotes : ∃ s, pyGetD input_data "notes" (Value.str "") = Value.str s)
    (htool : (log_interaction_tool now freshId dbFail input_data db).1.success = true) :
    (process_interaction Option.none now freshId dbFail input_data db).1.success = true ∧
    (process_interaction Option.none now freshId dbFail input_data db).1.tool_used =
      Option.some "log_interaction" ∧
    (process_interaction Option.none now freshId dbFail input_data db).1.tool_result =
      Option.some (log_interaction_tool now freshId dbFail input_data db).1 ∧
    (∃ b : AIInsights,
      (process_interaction Option.none now freshId dbFail input_data db).1.ai_insights =
        Option.some b ∧
      b.insights.length = 3) ∧
    (process_interaction Option.none now freshId dbFail input_data db).1.processed_at =
      Option.some now := by
  obtain ⟨s, hs⟩ := hnotes
  rcases dbFail with _ | e
  · refine ⟨?_, ?_, ?_, ⟨mockChatInsights now (pySplitWs s).length, ?_, rfl⟩, ?_⟩ <;>
      simp [process_interaction, TOOLS_keys, log_interaction_tool, hmode,
        generate_ai_summary, mock_ai_summary, hs]
  · exact absurd htool (by simp [log_interaction_tool])

/-- Witness for the amended C1 at `{"mode": "chat", "notes": "fever"}`. -/
theorem c1_chat_envelope_witness :
    pyGetD [("mode", Value.str "chat"), ("notes", Value.str "fever")] "mode"
        (Value.str "form") = Value.str "chat" ∧
    (∃ s, pyGetD [("mode", Value.str "chat"), ("notes", Value.str "fever")] "notes"
        (Value.str "") = Value.str s) ∧
    (log_interaction_tool 3 "uuid-1" Option.none
        [("mode", Value.str "chat"), ("notes", Value.str "fever")] []).1.success = true ∧
    ((process_interaction Option.none 3 "uuid-1" Option.none
        [("mode", Value.str "chat"), ("notes", Value.str "fever")] []).1.success = true ∧
    (process_interaction Option.none 3 "uuid-1" Option.none
        [("mode", Value.str "chat"), ("notes", Value.str "fever")] []).1.tool_used =
      Option.some "log_interaction" ∧
    (process_interaction Option.none 3 "uuid-1" Option.none
        [("mode", Value.str "chat"), ("notes", Value.str "fever")] []).1.tool_result =
      Option.some (log_interaction_tool 3 "uuid-1" Option.none
        [("mode", Value.str "chat"), ("notes", Value.str "fever")] []).1 ∧
    (∃ b : AIInsights,
      (process_interaction Option.none 3 "uuid-1" Option.none
          [("mode", Value.str "chat"), ("notes", Value.str "fever")] []).1.ai_insights =
        Option.some b ∧
      b.insights.length = 3) ∧
    (process_interaction Option.none 3 "uuid-1" Option.none
        [("mode", Value.str "chat"), ("notes", Value.str "fever")] []).1.processed_at =
      Option.some 3) :=
  ⟨rfl, ⟨"fever", rfl⟩, rfl,
    c1_chat_envelope 3 "uuid-1" Option.none _ [] rfl ⟨"fever", rfl⟩ rfl⟩

/-- C8: for every payload on which the log tool reports failure,
`process_interaction` returns the failure envelope carrying the tool's
error message (and the tool's raw result), with no `ai_insights` attached;
the result does not depend on the configured summary capability `groq` at
all, reflecting that the Summary Generator is never invoked. -/
theorem c8_tool_failure_envelope (groq : Option GroqEnv) (now : Nat) (freshId : String)
    (dbFail : Option String) (input_data : Payload) (db : Store)
    (hfail : (log_interaction_tool now freshId dbFail input_data db).1.success = false) :
    process_interaction groq now freshId dbFail input_data db =
      ({ success := false
         message := Option.some
           ((log_interaction_tool now freshId dbFail input_data db).1.error.getD
             "Tool execution failed")
         tool_result := Option.some (log_interaction_tool now freshId dbFail input_data db).1 },
        (log_interaction_tool now freshId dbFail input_data db).2) := by
  simp [process_interaction, TOOLS_keys, hfail]

/-- Witness for C8: a storage failure ("disk I-O error") makes the tool
fail, and the processor forwards that message without summarizing. -/
theorem c8_tool_failure_envelope_witness :
    (log_interaction_tool 2 "uuid-8" (Option.some "disk error")
        [("mode", Value.str "form")] []).1.success = false ∧
    process_interaction Option.none 2 "uuid-8" (Option.some "disk error")
        [("mode", Value.str "form")] [] =
      ({ success := false
         message := Option.some
           ((log_interaction_tool 2 "uuid-8" (Option.some "disk error")
               [("mode", Value.str "form")] []).1.error.getD "Tool execution failed")
         tool_result := Option.some (log_interaction_tool 2 "uuid-8" (Option.some "disk error")
           [("mode", Value.str "form")] []).1 },
        (log_interaction_tool 2 "uuid-8" (Option.some "disk error")
          [("mode", Value.str "form")] []).2) :=
  ⟨rfl, c8_tool_failure_envelope Option.none 2 "uuid-8" (Option.some "disk error") _ [] rfl⟩

end HealthcareCRM
